import Mathlib

/-!
Shallow embedding of the storage core of atlas-scribe
(src/services/storage.js) and proofs about its claims.

Keys, values, file paths and file contents are JavaScript strings; they are
embedded as Lean `String`, with the JS `slice` operations modelled on the
character list `String.data` (keys in this code are plain ASCII, so JS
code-unit indices and character indices coincide).
-/

set_option autoImplicit false

namespace Atlas

/-- Modelled from the spec: the Result type of ../lib/result (repository code
not under src/). Section 3: a tagged union, exactly one of success or
failure, propagated rather than thrown. -/
inductive Result (T : Type) (E : Type) where
  | success : T → Result T E
  | failure : E → Result T E
  deriving Repr, DecidableEq

/-- Modelled from the spec: `succeed(value)` constructs a success. -/
def succeed {T E : Type} (value : T) : Result T E := Result.success value

/-- Modelled from the spec: `fail(failure)` constructs a failure. -/
def fail {T E : Type} (failure : E) : Result T E := Result.failure failure

/-- Modelled from the spec: `handleResult(result, onSuccess, onFailure)`
dispatches to the matching handler and returns its output. -/
def handleResult {T E A : Type} (r : Result T E) (onSuccess : T → A) (onFailure : E → A) : A :=
  match r with
  | Result.success v => onSuccess v
  | Result.failure f => onFailure f

/-- The failure taxonomy of storage.js: not-found, internal-failure (carrying
the underlying error, rendered as a string) and cast-failure (carrying a
validation message). -/
inductive Failure where
  | notFound : Failure
  | internalFailure : String → Failure
  | castFailure : String → Failure
  deriving Repr, DecidableEq

/-- The STDMapStore contract of storage.js (lines 21-27): four operations.
Asynchrony is erased; stateful effects are explicit state passing over a
backend state type `S`. `write` and `destroy` return the updated state with
their result; `list` and `read` leave the state unchanged in every backend. -/
structure STDMapStore (K V S : Type) where
  list : S → Result (List K) Failure
  read : K → S → Result V Failure
  write : K → V → S → S × Result Unit Failure
  destroy : K → S → S × Result Unit Failure

/-! ## The map2 backing of the memory store

Modelled from the spec: createMap2 of ../lib/map2 (repository code not under
src/), described in section 4.3 as an ordinary mutable key-to-value mapping.
Embedded as an association list; get and delete report absence, set upserts. -/

/-- Modelled from the spec: map lookup of createMap2. -/
def map2get {K V : Type} [DecidableEq K] (entries : List (K × V)) (k : K) : Option V :=
  (entries.find? (fun p => decide (p.1 = k))).map Prod.snd

/-- Modelled from the spec: map upsert of createMap2 (remove any old entry
for the key, then append the new one; section 4.2 gives no ordering
guarantee for `list`). -/
def map2set {K V : Type} [DecidableEq K] (entries : List (K × V)) (k : K) (v : V) : List (K × V) :=
  entries.filter (fun p => !decide (p.1 = k)) ++ [(k, v)]

/-- Modelled from the spec: map removal of createMap2; `none` when the key
is absent. -/
def map2delete {K V : Type} [DecidableEq K] (entries : List (K × V)) (k : K) : Option (List (K × V)) :=
  if (map2get entries k).isSome then
    some (entries.filter (fun p => !decide (p.1 = k)))
  else
    none

/-- createMemoryMapStore (storage.js lines 29-48): backs the contract with a
process-local mapping. The backend state is the association list of entries. -/
def createMemoryMapStore (K V : Type) [DecidableEq K] : STDMapStore K V (List (K × V)) where
  list st := succeed (st.map Prod.fst)
  read k st :=
    match map2get st k with
    | some value => succeed value
    | none => fail Failure.notFound
  write k v st := (map2set st k v, succeed ())
  destroy k st :=
    match map2delete st k with
    | some st2 => (st2, succeed ())
    | none => (st, fail Failure.notFound)

/-! ## Filesystem boundary

The Node fs API consumed by the directory store, modelled at its boundary
(spec section 6): a set of directories plus one content string per file
path. Errors carry the errno codes the source inspects. -/

/-- Errno codes distinguished by storage.js error handling (EEXIST, ENOENT)
plus EISDIR, which Linux returns for unlink/read/write on a directory. -/
inductive FsCode where
  | ENOENT : FsCode
  | EEXIST : FsCode
  | EISDIR : FsCode
  deriving Repr, DecidableEq

/-- Render an errno code as the string stored in an internal-failure. -/
def fsCodeName : FsCode → String
  | FsCode.ENOENT => "ENOENT"
  | FsCode.EEXIST => "EEXIST"
  | FsCode.EISDIR => "EISDIR"

/-- The filesystem state: one content string per file path, plus the set of
existing directories. -/
structure FS where
  files : List (String × String)
  dirs : List String
  deriving Repr, DecidableEq

/-- path.join of the source, for a directory path and a plain (slash-free)
key segment. -/
def join (path key : String) : String := path ++ "/" ++ key

/-- Modelled fs.promises.readFile: content of the file, EISDIR on a
directory, ENOENT when absent. -/
def readFileFS (p : String) (fs : FS) : Except FsCode String :=
  if fs.dirs.contains p then Except.error FsCode.EISDIR
  else
    match map2get fs.files p with
    | some content => Except.ok content
    | none => Except.error FsCode.ENOENT

/-- Modelled fs.promises.writeFile: create or overwrite the file, EISDIR on
a directory. -/
def writeFileFS (p : String) (value : String) (fs : FS) : Except FsCode FS :=
  if fs.dirs.contains p then Except.error FsCode.EISDIR
  else Except.ok { fs with files := map2set fs.files p value }

/-- Modelled fs.promises.unlink: remove the file; EISDIR on a directory
(the Linux errno; other platforms give EPERM, likewise neither ENOENT nor
EEXIST), ENOENT when absent. -/
def unlinkFS (p : String) (fs : FS) : Except FsCode FS :=
  if fs.dirs.contains p then Except.error FsCode.EISDIR
  else if (map2get fs.files p).isSome then
    Except.ok { fs with files := fs.files.filter (fun q => !decide (q.1 = p)) }
  else Except.error FsCode.ENOENT

/-- Strip a leading directory part `pre ++ "/"` from a path, as a character
list computation. -/
def dirEntryName (pre p : String) : Option String :=
  let preData := (pre ++ "/").data
  if p.data.take preData.length = preData then some (String.mk (p.data.drop preData.length))
  else none

/-- Modelled fs.promises.readdir: the entry names directly under a
directory; ENOENT when the directory is absent. -/
def readdirFS (p : String) (fs : FS) : Except FsCode (List String) :=
  if fs.dirs.contains p then
    Except.ok (fs.files.filterMap (fun q => dirEntryName p q.1))
  else Except.error FsCode.ENOENT

/-- directoryExists (storage.js lines 53-62): stat succeeds and reports a
directory; ENOENT (and EEXIST) map to false. -/
def directoryExists (path : String) (fs : FS) : Bool :=
  fs.dirs.contains path

/-- Modelled fs.promises.mkdir with recursive: true — record the directory
as existing. -/
def mkdirFS (path : String) (fs : FS) : FS :=
  { fs with dirs := path :: fs.dirs }

/-- The construction effect of createDirectoryMapStore (storage.js lines
64-67): create the directory recursively when it does not exist. -/
def createDirectoryMapStoreInit (path : String) (fs : FS) : FS :=
  if directoryExists path fs then fs else mkdirFS path fs

/-- The operations of createDirectoryMapStore (storage.js lines 68-105).
`destroy` is translated faithfully from lines 94-104: it computes
`filename = join(path, key)` but then calls `unlink(path)` — the store root
directory — leaving `filename` unused. -/
def createDirectoryMapStore (path : String) : STDMapStore String String FS where
  list fs :=
    match readdirFS path fs with
    | Except.ok names => succeed names
    | Except.error e => fail (Failure.internalFailure (fsCodeName e))
  read key fs :=
    let filename := join path key
    match readFileFS filename fs with
    | Except.ok content => succeed content
    | Except.error e =>
      if e = FsCode.EEXIST ∨ e = FsCode.ENOENT then fail Failure.notFound
      else fail (Failure.internalFailure (fsCodeName e))
  write key value fs :=
    let filename := join path key
    match writeFileFS filename value fs with
    | Except.ok fs2 => (fs2, succeed ())
    | Except.error e => (fs, fail (Failure.internalFailure (fsCodeName e)))
  destroy key fs :=
    let _filename := join path key
    match unlinkFS path fs with
    | Except.ok fs2 => (fs2, succeed ())
    | Except.error e =>
      if e = FsCode.EEXIST ∨ e = FsCode.ENOENT then (fs, fail Failure.notFound)
      else (fs, fail (Failure.internalFailure (fsCodeName e)))

/-! ## JSON modeled storage

createJSONModeledStorage (storage.js lines 113-157). The chain combinator of
the external result package and JSON.parse are not under src/ and are
modelled from the spec: a chain threads a success through stages,
short-circuits to the first failure, and a stage exception (a JSON.parse
throw) is folded to an internal-failure (spec sections 4.1 and 7). The parse
function is a parameter `jsonParse` producing a value of an abstract parsed
type `J` or the message of the thrown exception. -/

/-- A model capability (from @lukekaalim/model, external): validates raw
data of type `A` into `B` or fails with a cast-failure message. -/
structure Model (A B : Type) where
  from_ : A → Result B String

/-- The catch stage of createJSONModeledStorage.read (storage.js lines
136-146): cast-failure is re-labeled internal-failure; internal-failure and
not-found pass through; the taxonomy is exhaustive. -/
def jsonCatch {V : Type} (failure : Failure) : Result V Failure :=
  match failure with
  | Failure.castFailure message => fail (Failure.internalFailure message)
  | Failure.internalFailure e => fail (Failure.internalFailure e)
  | Failure.notFound => fail Failure.notFound

/-- The key-validation loop of createJSONModeledStorage.list (storage.js
lines 121-131): validate each inner key through the key model, aborting with
an internal-failure wrapping the message of the first key that fails. -/
def jsonListKeys {K : Type} (keyModel : Model String K) (stringKeys : List String) :
    Result (List K) Failure :=
  match stringKeys with
  | [] => succeed []
  | stringKey :: rest =>
    match keyModel.from_ stringKey with
    | Result.failure message => fail (Failure.internalFailure message)
    | Result.success key =>
      match jsonListKeys keyModel rest with
      | Result.success keys => succeed (key :: keys)
      | Result.failure f => fail f

/-- createJSONModeledStorage (storage.js lines 113-157): wraps an inner
string store, validating keys and values through models and carrying values
as JSON text. `jsonParse` stands for JSON.parse (its exception surfaces as
an error message), `stringFromValue` for the serialization. -/
def createJSONModeledStorage {K V J S : Type}
    (mapStore : STDMapStore String String S)
    (jsonParse : String → Except String J)
    (valueModel : Model J V)
    (keyModel : Model String K)
    (stringFromKey : K → String)
    (stringFromValue : V → String) : STDMapStore K V S where
  list st :=
    match mapStore.list st with
    | Result.success stringKeys => jsonListKeys keyModel stringKeys
    | Result.failure f => fail f
  read key st :=
    match mapStore.read (stringFromKey key) st with
    | Result.failure f => jsonCatch f
    | Result.success content =>
      match jsonParse content with
      | Except.error e => jsonCatch (Failure.internalFailure e)
      | Except.ok parsed =>
        match valueModel.from_ parsed with
        | Result.failure message => jsonCatch (Failure.castFailure message)
        | Result.success value => succeed value
  write key value st := mapStore.write (stringFromKey key) (stringFromValue value) st
  destroy key st := mapStore.destroy (stringFromKey key) st

/-! ## Key transform combinators (storage.js lines 159-183)

JS string operations: template concatenation is String append;
`slice(0, -n)` keeps all but the last n code units; `slice(n)` drops the
first n. They are embedded on the character list `String.data`. -/

/-- JS `s.slice(0, 0 - n)` for positive `n`: keep all but the last `n`
characters; the empty string when `n` exceeds the length. -/
def jsSliceToNeg (s : String) (n : Nat) : String :=
  String.mk (s.data.take (s.data.length - n))

/-- JS `s.slice(n)` for a nonnegative index: drop the first `n` characters. -/
def jsSliceFrom (s : String) (n : Nat) : String :=
  String.mk (s.data.drop n)

/-- JS `s.length`: the number of characters. -/
def jsLength (s : String) : Nat := s.data.length

/-- transformKey (storage.js lines 159-173): wrap an inner store, applying
the forward transform to keys on read/write/destroy and the backward
transform to every key the inner list returns. -/
def transformKey {K TK V S : Type}
    (transform : K → TK) (untransformKey : TK → K)
    (mapStore : STDMapStore TK V S) : STDMapStore K V S where
  list st := handleResult (mapStore.list st)
    (fun keys => succeed (keys.map untransformKey))
    (fun failure => fail failure)
  read key st := mapStore.read (transform key) st
  write key value st := mapStore.write (transform key) value st
  destroy key st := mapStore.destroy (transform key) st

/-- The forward key transform of transformKeyWithFileExtension (storage.js
line 178): append a dot and the extension string. -/
def extForward (fileExtension key : String) : String :=
  key ++ "." ++ fileExtension

/-- The backward key transform of transformKeyWithFileExtension (storage.js
line 178): `key.slice(0, 0 - (fileExtension.length + 1))`. -/
def extBackward (fileExtension key : String) : String :=
  jsSliceToNeg key (jsLength fileExtension + 1)

/-- transformKeyWithFileExtension (storage.js lines 177-179). -/
def transformKeyWithFileExtension {V S : Type} (fileExtension : String)
    (storage : STDMapStore String V S) : STDMapStore String V S :=
  transformKey (extForward fileExtension) (extBackward fileExtension) storage

/-- The forward key transform of transformKeyWithNamespace (storage.js line
182): prepend the namespace and a slash. -/
def nsForward (ns key : String) : String :=
  ns ++ "/" ++ key

/-- The backward key transform of transformKeyWithNamespace (storage.js line
182): `key.slice(namespace.length + 1)`. -/
def nsBackward (ns key : String) : String :=
  jsSliceFrom key (jsLength ns + 1)

/-- transformKeyWithNamespace (storage.js lines 181-183). -/
def transformKeyWithNamespace {V S : Type} (ns : String)
    (storage : STDMapStore String V S) : STDMapStore String V S :=
  transformKey (nsForward ns) (nsBackward ns) storage

/-! ## The factory (storage.js lines 185-220) -/

/-- The storage part of the configuration: a discriminant string plus the
fields the recognized variants read. -/
structure StorageConfig where
  type : String
  dir : String
  creds : String
  bucketName : String

/-- The configuration record consumed by the factory. -/
structure Config where
  storage : StorageConfig

/-- The store assembled by the factory: one constructor per recognized
variant, each carrying the fully composed store over its backend state. -/
inductive AssembledStore (V J S3 : Type) where
  | s3Json : STDMapStore String V S3 → AssembledStore V J S3
  | localJson : STDMapStore String V FS → AssembledStore V J S3
  | memory : STDMapStore String V (List (String × V)) → AssembledStore V J S3

/-- createModelMapStore (storage.js lines 185-220). A throw is an
`Except.error` carrying the exception message; createS3Storage is external
and enters as the already constructed `s3Store`. The local-json branch also
performs the directory-creation construction effect, returned alongside.
Keys are strings (the Flow bound `K: string`); `stringFromKey` is the
identity default of createJSONModeledStorage. -/
def createModelMapStore {V J S3 : Type}
    (config : Config)
    (valueModel : Model J V)
    (keyModel : Model String String)
    (ns : String)
    (s3Store : STDMapStore String String S3)
    (jsonParse : String → Except String J)
    (stringFromValue : V → String)
    (fs : FS) : Except String (AssembledStore V J S3 × FS) :=
  if config.storage.type = "s3-json" then
    Except.ok (AssembledStore.s3Json (createJSONModeledStorage
      (transformKeyWithNamespace ns
        (transformKeyWithFileExtension ".json" s3Store))
      jsonParse valueModel keyModel (fun k => k) stringFromValue), fs)
  else if config.storage.type = "local-json" then
    Except.ok (AssembledStore.localJson (createJSONModeledStorage
      (transformKeyWithFileExtension ".json"
        (createDirectoryMapStore (join config.storage.dir ns)))
      jsonParse valueModel keyModel (fun k => k) stringFromValue),
      createDirectoryMapStoreInit (join config.storage.dir ns) fs)
  else if config.storage.type = "memory" then
    Except.ok (AssembledStore.memory (createMemoryMapStore String V), fs)
  else
    Except.error ("Unknown storage type: " ++ config.storage.type)

/-! ## Helper lemmas -/

theorem map2get_filter_self {K V : Type} [DecidableEq K] (st : List (K × V)) (k : K) :
    map2get (st.filter (fun p => !decide (p.1 = k))) k = none := by
  unfold map2get
  rw [List.find?_eq_none.mpr]
  · rfl
  · intro x hx
    simp only [List.mem_filter, Bool.not_eq_true'] at hx
    simp [hx.2]

theorem map2get_set_self {K V : Type} [DecidableEq K] (st : List (K × V)) (k : K) (v : V) :
    map2get (map2set st k v) k = some v := by
  unfold map2set map2get
  rw [List.find?_append]
  have h1 : (st.filter (fun p => !decide (p.1 = k))).find? (fun p => decide (p.1 = k)) = none := by
    have := map2get_filter_self st k
    unfold map2get at this
    cases hf : (st.filter (fun p => !decide (p.1 = k))).find? (fun p => decide (p.1 = k)) with
    | none => rfl
    | some x => rw [hf] at this; simp at this
  rw [h1]
  simp

/-- Thread a sequence of writes through a store, returning the final
backend state. -/
def writeAll {K V S : Type} (s : STDMapStore K V S) (ps : List (K × V)) (st : S) : S :=
  ps.foldl (fun acc p => (s.write p.1 p.2 acc).1) st

theorem nsRoundtrip (ns k : String) : nsBackward ns (nsForward ns k) = k := by
  unfold nsBackward nsForward jsSliceFrom jsLength
  apply String.ext
  show ((ns ++ "/" ++ k).data.drop (ns.data.length + 1)) = k.data
  rw [String.data_append, String.data_append]
  rw [show ("/" : String).data = ['/'] from rfl]
  rw [show ns.data.length + 1 = (ns.data ++ ['/']).length by simp]
  rw [List.drop_left]

theorem extRoundtrip (ext k : String) : extBackward ext (extForward ext k) = k := by
  unfold extBackward extForward jsSliceToNeg jsLength
  apply String.ext
  show ((k ++ "." ++ ext).data.take
    ((k ++ "." ++ ext).data.length - (ext.data.length + 1))) = k.data
  rw [String.data_append, String.data_append]
  rw [show ("." : String).data = ['.'] from rfl]
  have hlen : (k.data ++ ['.'] ++ ext.data).length - (ext.data.length + 1) = k.data.length := by
    simp
  rw [hlen, List.append_assoc]
  exact List.take_left' rfl

theorem writeAll_memory_fresh {K V : Type} [DecidableEq K]
    (ps : List (K × V)) (st : List (K × V))
    (hd : ∀ k ∈ ps.map Prod.fst, k ∉ st.map Prod.fst)
    (hn : (ps.map Prod.fst).Nodup) :
    writeAll (createMemoryMapStore K V) ps st = st ++ ps := by
  induction ps generalizing st with
  | nil => simp [writeAll]
  | cons p ps ih =>
    have hn1 : p.1 ∉ ps.map Prod.fst := by
      have h2 := hn
      simp only [List.map_cons, List.nodup_cons] at h2
      exact h2.1
    have hn2 : (ps.map Prod.fst).Nodup := by
      have h2 := hn
      simp only [List.map_cons, List.nodup_cons] at h2
      exact h2.2
    have hstep : ((createMemoryMapStore K V).write p.1 p.2 st).1 = st ++ [p] := by
      show map2set st p.1 p.2 = st ++ [p]
      unfold map2set
      rw [List.filter_eq_self.mpr, Prod.mk.eta]
      intro a ha
      have hmem : p.1 ∉ st.map Prod.fst := hd p.1 (by simp)
      simp only [Bool.not_eq_true', decide_eq_false_iff_not]
      intro hak
      exact hmem (hak ▸ List.mem_map_of_mem Prod.fst ha)
    have hd2 : ∀ k ∈ ps.map Prod.fst, k ∉ (st ++ [p]).map Prod.fst := by
      intro k hk hmem
      rw [List.map_append] at hmem
      rcases List.mem_append.mp hmem with hst | hsing
      · exact hd k (by simp [hk]) hst
      · have hkp : k = p.1 := by simpa using hsing
        exact hn1 (hkp ▸ hk)
    have hrest : writeAll (createMemoryMapStore K V) (p :: ps) st =
        writeAll (createMemoryMapStore K V) ps (st ++ [p]) := by
      unfold writeAll
      rw [List.foldl_cons]
      show (ps.foldl _ (((createMemoryMapStore K V).write p.1 p.2 st).1)) = _
      rw [hstep]
    rw [hrest, ih (st ++ [p]) hd2 hn2]
    simp

theorem writeAll_transformKey {K TK V S : Type}
    (f : K → TK) (b : TK → K) (s : STDMapStore TK V S)
    (ps : List (K × V)) (st : S) :
    writeAll (transformKey f b s) ps st =
      writeAll s (ps.map (fun p => (f p.1, p.2))) st := by
  induction ps generalizing st with
  | nil => rfl
  | cons p ps ih =>
    unfold writeAll at *
    rw [List.map_cons, List.foldl_cons, List.foldl_cons]
    exact ih _

theorem transform_list_roundtrip {K V : Type} [DecidableEq K]
    (f b : K → K) (hfb : ∀ k, b (f k) = k)
    (ps : List (K × V)) (hn : (ps.map Prod.fst).Nodup) :
    (transformKey f b (createMemoryMapStore K V)).list
      (writeAll (transformKey f b (createMemoryMapStore K V)) ps []) =
      succeed (ps.map Prod.fst) := by
  have hinj : Function.Injective f := by
    intro a b2 hab
    have := congrArg b hab
    rwa [hfb, hfb] at this
  rw [writeAll_transformKey]
  set ps2 := ps.map (fun p => (f p.1, p.2)) with hps2
  have hkeys : ps2.map Prod.fst = (ps.map Prod.fst).map f := by
    rw [hps2, List.map_map, List.map_map]
    rfl
  have hn2 : (ps2.map Prod.fst).Nodup := by
    rw [hkeys]; exact hn.map hinj
  have hw : writeAll (createMemoryMapStore K V) ps2 [] = ps2 := by
    rw [writeAll_memory_fresh ps2 [] (by simp) hn2]
    simp
  show handleResult ((createMemoryMapStore K V).list
      (writeAll (createMemoryMapStore K V) ps2 []))
      (fun keys => succeed (keys.map b)) (fun failure => fail failure) =
    succeed (ps.map Prod.fst)
  rw [hw]
  show succeed ((ps2.map Prod.fst).map b) = succeed (ps.map Prod.fst)
  rw [hkeys, List.map_map]
  congr 1
  calc (ps.map Prod.fst).map (b ∘ f)
      = (ps.map Prod.fst).map id := List.map_congr_left (fun a _ => hfb a)
    _ = ps.map Prod.fst := List.map_id _

/-! ## Claim theorems -/

/-- C1: the claim states that for a written key k, destroy(k) removes
exactly the file for k and never the containing directory. The code
(storage.js line 97) calls unlink on the store root directory path instead
of the computed per-key filename: at a store holding keys a and b,
destroy("a") removes no file at all — the filesystem state is unchanged,
both files intact — and returns an internal-failure from unlinking the
directory. -/
theorem c1_directory_destroy_removes_no_file :
    (createDirectoryMapStore "store").destroy "a"
      { files := [("store/a", "1"), ("store/b", "2")], dirs := ["store"] } =
    ({ files := [("store/a", "1"), ("store/b", "2")], dirs := ["store"] },
      fail (Failure.internalFailure "EISDIR")) := by
  rfl

/-- C2: the claim states that on a fresh directory store, destroy("missing")
returns a not-found failure with no file created or removed. The code
unlinks the store root directory, which exists after construction, so the
call returns an internal-failure (EISDIR), not not-found; the state is
indeed unchanged. -/
theorem c2_fresh_destroy_missing_not_notfound :
    ((createDirectoryMapStore "store").destroy "missing"
        (createDirectoryMapStoreInit "store" { files := [], dirs := [] }) =
      (createDirectoryMapStoreInit "store" { files := [], dirs := [] },
        fail (Failure.internalFailure "EISDIR"))) ∧
    ((createDirectoryMapStore "store").destroy "missing"
        (createDirectoryMapStoreInit "store" { files := [], dirs := [] })).2 ≠
      (fail Failure.notFound : Result Unit Failure) := by
  constructor
  · rfl
  · decide

/-- C3: the claim states that for both backends, write(k, v) then destroy(k)
then read(k) ends in not-found. It holds for the memory backend (first
conjunct), but on the directory backend destroy fails (unlink targets the
root directory) and leaves the file in place, so the final read returns the
value, not not-found (second conjunct, at key k, value v). -/
theorem c3_destroy_sequence_directory_fails :
    ((createMemoryMapStore String String).read "k"
      (((createMemoryMapStore String String).destroy "k"
        (((createMemoryMapStore String String).write "k" "v" []).1)).1) =
      fail Failure.notFound) ∧
    ((createDirectoryMapStore "store").read "k"
      (((createDirectoryMapStore "store").destroy "k"
        (((createDirectoryMapStore "store").write "k" "v"
          (createDirectoryMapStoreInit "store" { files := [], dirs := [] })).1)).1) =
      succeed "v") := by
  constructor
  · rfl
  · rfl

/-- C4: for both backends, write(k, v) followed by read(k) with no mutation
in between returns success carrying exactly v. For the directory backend the
statement assumes no directory occupies the per-key file path (the store
only ever creates regular files there). -/
theorem c4_write_read_roundtrip {K V : Type} [DecidableEq K]
    (k : K) (v : V) (st : List (K × V))
    (path fk fv : String) (fs : FS)
    (h : fs.dirs.contains (join path fk) = false) :
    ((createMemoryMapStore K V).read k
        (((createMemoryMapStore K V).write k v st).1) = succeed v) ∧
    ((createDirectoryMapStore path).read fk
        (((createDirectoryMapStore path).write fk fv fs).1) = succeed fv) := by
  constructor
  · show (match map2get (map2set st k v) k with
      | some value => succeed value
      | none => fail Failure.notFound) = succeed v
    rw [map2get_set_self]
  · show (createDirectoryMapStore path).read fk
        (((createDirectoryMapStore path).write fk fv fs).1) = succeed fv
    unfold createDirectoryMapStore
    simp only [writeFileFS, readFileFS, h, Bool.false_eq_true, if_false]
    rw [map2get_set_self]

/-- C4 witness: the round trip at concrete inputs for both backends. -/
theorem c4_write_read_roundtrip_witness :
    ((createMemoryMapStore String String).read "k"
        (((createMemoryMapStore String String).write "k" "v" []).1) = succeed "v") ∧
    ((createDirectoryMapStore "store").read "a"
        (((createDirectoryMapStore "store").write "a" "1"
          { files := [], dirs := ["store"] }).1) = succeed "1") :=
  c4_write_read_roundtrip "k" "v" [] "store" "a" "1"
    { files := [], dirs := ["store"] } (by decide)

/-- C5: for the namespace and extension combinators the backward key
transform undoes the forward one, and list() on a wrapped memory store
returns exactly the keys written through that same wrapping, in original
untransformed form (the written keys being pairwise distinct). -/
theorem c5_combinator_roundtrip {V : Type} (ns ext : String)
    (ps : List (String × V)) (hn : (ps.map Prod.fst).Nodup) :
    (∀ k, nsBackward ns (nsForward ns k) = k) ∧
    (∀ k, extBackward ext (extForward ext k) = k) ∧
    ((transformKeyWithNamespace ns (createMemoryMapStore String V)).list
      (writeAll (transformKeyWithNamespace ns (createMemoryMapStore String V)) ps []) =
      succeed (ps.map Prod.fst)) ∧
    ((transformKeyWithFileExtension ext (createMemoryMapStore String V)).list
      (writeAll (transformKeyWithFileExtension ext (createMemoryMapStore String V)) ps []) =
      succeed (ps.map Prod.fst)) := by
  refine ⟨nsRoundtrip ns, extRoundtrip ext, ?_, ?_⟩
  · exact transform_list_roundtrip (nsForward ns) (nsBackward ns) (nsRoundtrip ns) ps hn
  · exact transform_list_roundtrip (extForward ext) (extBackward ext) (extRoundtrip ext) ps hn

/-- C5 witness: the round trips and the wrapped listing at concrete inputs,
namespace users and extension json, two written keys. -/
theorem c5_combinator_roundtrip_witness :
    (nsBackward "users" (nsForward "users" "u1") = "u1") ∧
    (extBackward "json" (extForward "json" "u1") = "u1") ∧
    ((transformKeyWithNamespace "users" (createMemoryMapStore String String)).list
      (writeAll (transformKeyWithNamespace "users" (createMemoryMapStore String String))
        [("u1", "a"), ("u2", "b")] []) = succeed ["u1", "u2"]) ∧
    ((transformKeyWithFileExtension "json" (createMemoryMapStore String String)).list
      (writeAll (transformKeyWithFileExtension "json" (createMemoryMapStore String String))
        [("u1", "a"), ("u2", "b")] []) = succeed ["u1", "u2"]) := by
  have h := c5_combinator_roundtrip "users" "json" [("u1", "a"), ("u2", "b")] (by decide)
  exact ⟨h.1 "u1", h.2.1 "u1", h.2.2.1, h.2.2.2⟩

/-- C9: the factory passes the literal ".json" to the extension combinator,
whose forward transform inserts its own dot, so the physical key for an
outer key k is k ++ "..json" under local-json and ns/k..json under s3-json;
the backward transform strips 6 trailing characters (the length of ".json"
plus one), so the key round-trip nevertheless holds through the composed
transforms. The first conjunct pins the local-json branch of the factory to
exactly this composition. -/
theorem c9_double_dot_json {V J S3 : Type}
    (d creds bucket ns k : String) (fs : FS) (st : S3)
    (valueModel : Model J V) (keyModel : Model String String)
    (s3 : STDMapStore String String S3)
    (jsonParse : String → Except String J) (stringFromValue : V → String) :
    (createModelMapStore { storage := { type := "local-json", dir := d, creds := creds, bucketName := bucket } }
        valueModel keyModel ns s3 jsonParse stringFromValue fs =
      Except.ok (AssembledStore.localJson (createJSONModeledStorage
        (transformKeyWithFileExtension ".json" (createDirectoryMapStore (join d ns)))
        jsonParse valueModel keyModel (fun key => key) stringFromValue),
        createDirectoryMapStoreInit (join d ns) fs)) ∧
    (extForward ".json" k = k ++ "..json") ∧
    ((transformKeyWithFileExtension ".json" (createDirectoryMapStore (join d ns))).read k fs =
      (createDirectoryMapStore (join d ns)).read (k ++ "..json") fs) ∧
    ((transformKeyWithNamespace ns (transformKeyWithFileExtension ".json" s3)).read k st =
      s3.read (nsForward ns k ++ "..json") st) ∧
    (jsLength ".json" + 1 = 6) ∧
    (extBackward ".json" (extForward ".json" k) = k) ∧
    (nsBackward ns (extBackward ".json" (extForward ".json" (nsForward ns k))) = k) := by
  have hext : ∀ s : String, extForward ".json" s = s ++ "..json" := by
    intro s
    apply String.ext
    show (s ++ "." ++ ".json").data = (s ++ "..json").data
    simp only [String.data_append]
    simp
  refine ⟨rfl, hext k, ?_, ?_, rfl, extRoundtrip ".json" k, ?_⟩
  · show (createDirectoryMapStore (join d ns)).read (extForward ".json" k) fs = _
    rw [hext k]
  · show s3.read (extForward ".json" (nsForward ns k)) st = _
    rw [hext (nsForward ns k)]
  · rw [extRoundtrip, nsRoundtrip]

/-- C10: list() on a namespace-wrapped store applies the backward transform
(drop namespace length plus one characters) to every key the inner store
returns, with no check that the key begins with the namespace prefix: the
general conjunct shows the unconditional mapping over all inner entries, and
the concrete one shows inner keys users/u1, other/x and a under namespace
users coming back as u1, the mangled x and the empty string — never
filtered out. -/
theorem c10_namespace_list_unfiltered {V : Type} (ns : String)
    (entries : List (String × V)) :
    ((transformKeyWithNamespace ns (createMemoryMapStore String V)).list entries =
      succeed ((entries.map Prod.fst).map (fun k => jsSliceFrom k (jsLength ns + 1)))) ∧
    ((transformKeyWithNamespace "users" (createMemoryMapStore String String)).list
      [("users/u1", "a"), ("other/x", "b"), ("a", "c")] =
      succeed ["u1", "x", ""]) := by
  constructor
  · rfl
  · rfl

theorem jsonListKeys_abort {K : Type} (keyModel : Model String K)
    (good : List String) (bad : String) (rest : List String) (message : String)
    (hgood : ∀ g ∈ good, ∃ k, keyModel.from_ g = Result.success k)
    (hbad : keyModel.from_ bad = Result.failure message) :
    jsonListKeys keyModel (good ++ bad :: rest) = fail (Failure.internalFailure message) := by
  induction good with
  | nil =>
    show jsonListKeys keyModel (bad :: rest) = _
    unfold jsonListKeys
    rw [hbad]
  | cons g good ih =>
    obtain ⟨k, hk⟩ := hgood g (by simp)
    have ih2 := ih (fun x hx => hgood x (by simp [hx]))
    show jsonListKeys keyModel (g :: (good ++ bad :: rest)) = _
    unfold jsonListKeys
    rw [hk, ih2]
    rfl

theorem jsonListKeys_all {K : Type} (keyModel : Model String K)
    (stringKeys : List String) (keys : List K)
    (h : List.Forall₂ (fun sk k => keyModel.from_ sk = Result.success k) stringKeys keys) :
    jsonListKeys keyModel stringKeys = succeed keys := by
  induction h with
  | nil => rfl
  | cons hk _ ih =>
    unfold jsonListKeys
    rw [hk, ih]
    rfl

/-- C6: JSONModeledStorage.read signals every expected failure as a Result
in the outer taxonomy: inner not-found and internal-failure pass through
unchanged, a JSON parse exception becomes an internal-failure, a value-model
cast failure is re-labeled internal-failure, and no cast-failure ever
escapes outward. -/
theorem c6_json_read_failure_taxonomy {K V J S : Type}
    (mapStore : STDMapStore String String S)
    (jsonParse : String → Except String J)
    (valueModel : Model J V) (keyModel : Model String K)
    (stringFromKey : K → String) (stringFromValue : V → String)
    (key : K) (st : S) :
    (mapStore.read (stringFromKey key) st = fail Failure.notFound →
      (createJSONModeledStorage mapStore jsonParse valueModel keyModel
        stringFromKey stringFromValue).read key st = fail Failure.notFound) ∧
    (∀ e, mapStore.read (stringFromKey key) st = fail (Failure.internalFailure e) →
      (createJSONModeledStorage mapStore jsonParse valueModel keyModel
        stringFromKey stringFromValue).read key st = fail (Failure.internalFailure e)) ∧
    (∀ content e, mapStore.read (stringFromKey key) st = succeed content →
      jsonParse content = Except.error e →
      (createJSONModeledStorage mapStore jsonParse valueModel keyModel
        stringFromKey stringFromValue).read key st = fail (Failure.internalFailure e)) ∧
    (∀ content parsed message, mapStore.read (stringFromKey key) st = succeed content →
      jsonParse content = Except.ok parsed →
      valueModel.from_ parsed = Result.failure message →
      (createJSONModeledStorage mapStore jsonParse valueModel keyModel
        stringFromKey stringFromValue).read key st = fail (Failure.internalFailure message)) ∧
    (∀ message, (createJSONModeledStorage mapStore jsonParse valueModel keyModel
        stringFromKey stringFromValue).read key st ≠
      Result.failure (Failure.castFailure message)) := by
  refine ⟨?_, ?_, ?_, ?_, ?_⟩
  · intro h
    simp only [createJSONModeledStorage]
    rw [h]
    rfl
  · intro e h
    simp only [createJSONModeledStorage]
    rw [h]
    rfl
  · intro content e h hp
    simp only [createJSONModeledStorage]
    rw [h]
    show (match jsonParse content with
      | Except.error e2 => jsonCatch (Failure.internalFailure e2)
      | Except.ok parsed =>
        match valueModel.from_ parsed with
        | Result.failure message => jsonCatch (Failure.castFailure message)
        | Result.success value => succeed value) = fail (Failure.internalFailure e)
    rw [hp]
    rfl
  · intro content parsed message h hp hm
    simp only [createJSONModeledStorage]
    rw [h]
    show (match jsonParse content with
      | Except.error e2 => jsonCatch (Failure.internalFailure e2)
      | Except.ok parsed2 =>
        match valueModel.from_ parsed2 with
        | Result.failure message2 => jsonCatch (Failure.castFailure message2)
        | Result.success value => succeed value) = fail (Failure.internalFailure message)
    rw [hp]
    show (match valueModel.from_ parsed with
      | Result.failure message2 => jsonCatch (Failure.castFailure message2)
      | Result.success value => succeed value) = fail (Failure.internalFailure message)
    rw [hm]
    rfl
  · intro message
    simp only [createJSONModeledStorage]
    cases hr : mapStore.read (stringFromKey key) st with
    | failure g => cases g <;> simp [jsonCatch, fail]
    | success content =>
      dsimp only
      cases hp : jsonParse content with
      | error e => simp [jsonCatch, fail]
      | ok parsed =>
        dsimp only
        cases hm : valueModel.from_ parsed with
        | failure msg => simp [jsonCatch, fail]
        | success value => simp [succeed]

/-- C6 witness: the not-found passthrough, the parse-exception fold, the
cast-failure re-label and the internal-failure passthrough at concrete
stores, keys and models. -/
theorem c6_json_read_failure_taxonomy_witness :
    ((createJSONModeledStorage (createMemoryMapStore String String)
      (fun s => if s = "1" then Except.ok 1 else Except.error "bad json")
      ⟨fun n => if n = 1 then Result.success n else Result.failure "bad value"⟩
      ⟨fun s => Result.success s⟩ (fun k => k) (fun n => toString n)).read "k" [] =
      fail Failure.notFound) ∧
    ((createJSONModeledStorage (createMemoryMapStore String String)
      (fun s => if s = "1" then Except.ok 1 else Except.error "bad json")
      ⟨fun n => if n = 1 then Result.success n else Result.failure "bad value"⟩
      ⟨fun s => Result.success s⟩ (fun k => k) (fun n => toString n)).read "k"
        [("k", "oops")] = fail (Failure.internalFailure "bad json")) ∧
    ((createJSONModeledStorage (createMemoryMapStore String String)
      (fun s => if s = "1" then Except.ok 2 else Except.error "bad json")
      ⟨fun n => if n = 1 then Result.success n else Result.failure "bad value"⟩
      ⟨fun s => Result.success s⟩ (fun k => k) (fun n => toString n)).read "k"
        [("k", "1")] = fail (Failure.internalFailure "bad value")) ∧
    ((createJSONModeledStorage
      (⟨fun _ => succeed [], fun _ _ => fail (Failure.internalFailure "io"),
        fun _ _ st => (st, succeed ()), fun _ st => (st, fail Failure.notFound)⟩ :
        STDMapStore String String Unit)
      (fun s => if s = "1" then Except.ok 1 else Except.error "bad json")
      ⟨fun n => if n = 1 then Result.success n else Result.failure "bad value"⟩
      ⟨fun s => Result.success s⟩ (fun k => k) (fun n => toString n)).read "k" () =
      fail (Failure.internalFailure "io")) := by
  refine ⟨?_, ?_, ?_, ?_⟩
  · exact (c6_json_read_failure_taxonomy _ _ _ _ _ _ "k" []).1 rfl
  · exact (c6_json_read_failure_taxonomy _ _ _ _ _ _ "k" _).2.2.1 "oops" "bad json" rfl rfl
  · exact (c6_json_read_failure_taxonomy _ _ _ _ _ _ "k" _).2.2.2.1 "1" 2 "bad value" rfl rfl rfl
  · exact (c6_json_read_failure_taxonomy _ _ _ _ _ _ "k" ()).2.1 "io" rfl

/-- C7: JSONModeledStorage.list validates every inner key through the key
model; the first failing key aborts the whole call with an internal-failure
wrapping that key's validation message and no partial list; when every key
validates, the full model-validated key list is returned. -/
theorem c7_json_list_first_failure_aborts {K V J S : Type}
    (mapStore : STDMapStore String String S)
    (jsonParse : String → Except String J)
    (valueModel : Model J V) (keyModel : Model String K)
    (stringFromKey : K → String) (stringFromValue : V → String)
    (st : S) :
    (∀ good bad rest message,
      mapStore.list st = succeed (good ++ bad :: rest) →
      (∀ g ∈ good, ∃ k, keyModel.from_ g = Result.success k) →
      keyModel.from_ bad = Result.failure message →
      (createJSONModeledStorage mapStore jsonParse valueModel keyModel
        stringFromKey stringFromValue).list st = fail (Failure.internalFailure message)) ∧
    (∀ stringKeys keys,
      mapStore.list st = succeed stringKeys →
      List.Forall₂ (fun sk k => keyModel.from_ sk = Result.success k) stringKeys keys →
      (createJSONModeledStorage mapStore jsonParse valueModel keyModel
        stringFromKey stringFromValue).list st = succeed keys) := by
  constructor
  · intro good bad rest message hlist hgood hbad
    simp only [createJSONModeledStorage]
    rw [hlist]
    exact jsonListKeys_abort keyModel good bad rest message hgood hbad
  · intro stringKeys keys hlist hall
    simp only [createJSONModeledStorage]
    rw [hlist]
    exact jsonListKeys_all keyModel stringKeys keys hall

/-- C7 witness: with a key model rejecting the key bad, an inner listing
good1, bad, x aborts with the internal-failure wrapping the message of bad,
and an all-valid listing a, b returns both keys. -/
theorem c7_json_list_first_failure_aborts_witness :
    ((createJSONModeledStorage (createMemoryMapStore String String)
      (fun s => Except.ok s)
      ⟨fun s => Result.success s⟩
      ⟨fun s => if s = "bad" then Result.failure "invalid key" else Result.success s⟩
      (fun k => k) (fun v => v)).list
      [("good1", "v"), ("bad", "v"), ("x", "v")] =
      fail (Failure.internalFailure "invalid key")) ∧
    ((createJSONModeledStorage (createMemoryMapStore String String)
      (fun s => Except.ok s)
      ⟨fun s => Result.success s⟩
      ⟨fun s => if s = "bad" then Result.failure "invalid key" else Result.success s⟩
      (fun k => k) (fun v => v)).list
      [("a", "v"), ("b", "v")] = succeed ["a", "b"]) := by
  constructor
  · exact (c7_json_list_first_failure_aborts _ _ _ _ _ _ _).1
      ["good1"] "bad" ["x"] "invalid key" rfl
      (by
        intro g hg
        rw [List.mem_singleton] at hg
        exact ⟨"good1", by subst hg; rfl⟩)
      rfl
  · exact (c7_json_list_first_failure_aborts _ _ _ _ _ _ _).2
      ["a", "b"] ["a", "b"] rfl
      (List.Forall₂.cons rfl (List.Forall₂.cons rfl List.Forall₂.nil))

/-- C8: a storage configuration whose type is none of memory, local-json or
s3-json makes the factory throw (the Except is an error carrying the unknown
type) rather than return any store or failure Result; each of the three
recognized variants yields a constructed store. -/
theorem c8_factory_unknown_variant_throws {V J S3 : Type}
    (config : Config) (valueModel : Model J V) (keyModel : Model String String)
    (ns : String) (s3Store : STDMapStore String String S3)
    (jsonParse : String → Except String J) (stringFromValue : V → String)
    (fs : FS) :
    (config.storage.type ≠ "s3-json" → config.storage.type ≠ "local-json" →
      config.storage.type ≠ "memory" →
      createModelMapStore config valueModel keyModel ns s3Store jsonParse stringFromValue fs =
        Except.error ("Unknown storage type: " ++ config.storage.type)) ∧
    (config.storage.type = "s3-json" ∨ config.storage.type = "local-json" ∨
      config.storage.type = "memory" →
      ∃ store fs2,
        createModelMapStore config valueModel keyModel ns s3Store jsonParse stringFromValue fs =
          Except.ok (store, fs2)) := by
  constructor
  · intro h1 h2 h3
    unfold createModelMapStore
    rw [if_neg h1, if_neg h2, if_neg h3]
  · intro h
    unfold createModelMapStore
    rcases h with h | h | h
    · rw [if_pos h]
      exact ⟨_, _, rfl⟩
    · rw [if_neg (by rw [h]; decide), if_pos h]
      exact ⟨_, _, rfl⟩
    · rw [if_neg (by rw [h]; decide), if_neg (by rw [h]; decide), if_pos h]
      exact ⟨_, _, rfl⟩

/-- C8 witness: an unrecognized variant xml-files produces the fatal error,
and the memory variant produces a store, at concrete arguments. -/
theorem c8_factory_unknown_variant_throws_witness :
    (createModelMapStore
        { storage := { type := "xml-files", dir := "d", creds := "c", bucketName := "b" } }
        (⟨fun s => Result.success s⟩ : Model String String)
        ⟨fun s => Result.success s⟩ "ns"
        (createMemoryMapStore String String) (fun s => Except.ok s) (fun v => v)
        { files := [], dirs := [] } =
      Except.error "Unknown storage type: xml-files") ∧
    (∃ store fs2, createModelMapStore
        { storage := { type := "memory", dir := "d", creds := "c", bucketName := "b" } }
        (⟨fun s => Result.success s⟩ : Model String String)
        ⟨fun s => Result.success s⟩ "ns"
        (createMemoryMapStore String String) (fun s => Except.ok s) (fun v => v)
        { files := [], dirs := [] } =
      Except.ok (store, fs2)) := by
  constructor
  · exact (c8_factory_unknown_variant_throws _ _ _ _ _ _ _ _).1
      (by decide) (by decide) (by decide)
  · exact (c8_factory_unknown_variant_throws _ _ _ _ _ _ _ _).2 (Or.inr (Or.inr rfl))

end Atlas
